import Mathlib

/-!
Verification of FolderContentsLogger.py against its design specification.

The Python program snapshots the immediate contents of configured paths into
a log file stored inside a per-month folder named "<MonthName>_<Year>", and
deletes month folders older than MONTHS_TO_KEEP months.  This file gives a
shallow embedding of the program: each Python helper becomes a Lean function
over explicit inputs (the current year and month, the directory listings, the
configuration file content), filesystem effects become explicit state or
result values, and exceptions become Option or Except results.
-/

namespace FolderContentsLogger

/-! ### Character-level models of the Python string primitives -/

/-- Model of the ASCII-digit test used by the Python builtin int:
a character c is a digit when 48 <= c <= 57 (the codes of 0 and 9). -/
def isDigit (c : Char) : Bool :=
  decide (48 ≤ c.toNat ∧ c.toNat ≤ 57)

/-- Model of the whitespace characters stripped by the Python str.strip
and accepted around the digits by int: space, tab, newline, carriage
return, vertical tab and form feed. -/
def isPyWs (c : Char) : Bool :=
  decide (c.toNat = 32 ∨ c.toNat = 9 ∨ c.toNat = 10 ∨
          c.toNat = 13 ∨ c.toNat = 11 ∨ c.toNat = 12)

/-- ASCII lower-casing, modelling the case-insensitive matching that the
Python strptime performs on month names (the names are ASCII). -/
def lowerChar (c : Char) : Char :=
  if 65 ≤ c.toNat ∧ c.toNat ≤ 90 then Char.ofNat (c.toNat + 32) else c

/-- Model of the Python str.split(sep) for a one-character separator:
splits at every occurrence of the separator, keeping empty pieces, and
yields one piece when the separator is absent. -/
def splitChar (sep : Char) : List Char → List (List Char)
  | [] => [[]]
  | c :: cs =>
    match splitChar sep cs with
    | [] => [[]]
    | r :: rs => if c = sep then [] :: r :: rs else (c :: r) :: rs

/-- Model of the Python str.split(sep, 1) for a one-character separator:
splits at the first occurrence only; none when the separator is absent
(the program first tests membership with the in operator). -/
def splitFirst (sep : Char) : List Char → Option (List Char × List Char)
  | [] => none
  | c :: cs =>
    if c = sep then some ([], cs)
    else
      match splitFirst sep cs with
      | some (a, b) => some (c :: a, b)
      | none => none

/-- Model of the Python str.strip(): removes whitespace from both ends. -/
def pyStrip (l : List Char) : List Char :=
  ((l.dropWhile isPyWs).reverse.dropWhile isPyWs).reverse

/-- Value of a nonempty all-digit character sequence, the digit-reading
core of the Python int builtin; none when empty or any non-digit occurs. -/
def digitsVal (l : List Char) : Option Nat :=
  if l = [] then none
  else if l.all isDigit then
    some (l.foldl (fun a d => a * 10 + (d.toNat - 48)) 0)
  else none

/-- Model of the Python int(str) builtin: strips surrounding whitespace,
accepts one optional sign, then requires a nonempty run of digits;
raising ValueError is modelled as none. -/
def pyInt (l : List Char) : Option Int :=
  let t := pyStrip l
  if t = [] then none
  else if t.headD ' ' = '+' then (digitsVal (t.drop 1)).map (fun n => (n : Int))
  else if t.headD ' ' = '-' then (digitsVal (t.drop 1)).map (fun n => -(n : Int))
  else (digitsVal t).map (fun n => (n : Int))

/-- The ten decimal digit characters, as produced by decimal rendering. -/
def digitChar : Nat → Char
  | 0 => '0' | 1 => '1' | 2 => '2' | 3 => '3' | 4 => '4'
  | 5 => '5' | 6 => '6' | 7 => '7' | 8 => '8' | 9 => '9'
  | _ => '*'

/-- Decimal rendering with explicit fuel, recursing on the quotient by
ten; any fuel above the number itself is enough. -/
def natDigitsFuel : Nat → Nat → List Char
  | 0, _ => []
  | fuel + 1, n =>
    if n < 10 then [digitChar n]
    else natDigitsFuel fuel (n / 10) ++ [digitChar (n % 10)]

/-- Decimal rendering of a natural number, most significant digit first:
the model of strftime rendering the year (format code Y). -/
def natDigits (n : Nat) : List Char := natDigitsFuel (n + 1) n

/-! ### Month names and the strftime / strptime month models -/

/-- The full English month names, in calendar order, as used by
strftime with format code B and matched by strptime. -/
def monthNames : List String :=
  ["January", "February", "March", "April", "May", "June",
   "July", "August", "September", "October", "November", "December"]

/-- strftime with format code B: the full name of month m (1-based). -/
def month_name (m : Nat) : String :=
  monthNames.getD (m - 1) ""

/-- Case-insensitive comparison of a candidate against a month name,
modelling the IGNORECASE regular-expression match inside strptime. -/
def monthEqCI (s t : List Char) : Bool :=
  decide (s.map lowerChar = t.map lowerChar)

/-- First case-insensitive match of a candidate among a list of names,
numbering the names from i upward: the ordered alternation strptime
compiles the month names into. -/
def monthFind (s : List Char) : List String → Nat → Option Nat
  | [], _ => none
  | nm :: rest, i =>
    if monthEqCI s nm.data then some i else monthFind s rest (i + 1)

/-- Model of datetime.strptime(s, B-format).month: the input must be
exactly one full English month name, matched case-insensitively; the
ValueError raised otherwise is modelled as none. -/
def strptimeMonth (s : List Char) : Option Nat :=
  monthFind s monthNames 1

/-! ### The folder-name renderer and parser of the program -/

/-- The month-folder name built by create_monthly_folder:
strftime code B, an underscore, then strftime code Y. -/
def create_monthly_folder_name (year month : Nat) : String :=
  month_name month ++ "_" ++ String.mk (natDigits year)

/-- The body of the parse inside delete_old_monthly_folders once the name
split into exactly two pieces: int() on the year piece, strptime on the
month piece, then construction of datetime(year, month, 1), which raises
ValueError unless 1 <= year <= 9999 (MINYEAR and MAXYEAR). -/
def parse_parts (monthPart yearPart : List Char) : Option (Int × Nat) :=
  match pyInt yearPart with
  | none => none
  | some fy =>
    match strptimeMonth monthPart with
    | none => none
    | some fm => if 1 ≤ fy ∧ fy ≤ 9999 then some (fy, fm) else none

/-- The folder-name parse performed by delete_old_monthly_folders:
month_str, year_str = folder_name.split(underscore) requires exactly one
underscore (any other shape raises ValueError at unpacking), then the
pieces are converted as in parse_parts.  All ValueErrors are caught by
the surrounding handler, modelled as none. -/
def parse_folder_name (name : String) : Option (Int × Nat) :=
  match splitChar '_' name.data with
  | [monthPart, yearPart] => parse_parts monthPart yearPart
  | _ => none

/-! ### The retention decision of delete_old_monthly_folders -/

/-- Configuration constant of the program: how many months old logs
should be before deleting. -/
def MONTHS_TO_KEEP : Int := 3

/-- The per-folder decision of delete_old_monthly_folders: parse the
name; on success delete exactly when
(now.year - folder.year) * 12 + (now.month - folder.month) >= the
retention window; a parse failure is caught and the folder skipped. -/
def shouldDelete (nowYear nowMonth monthsToKeep : Int) (name : String) : Bool :=
  match parse_folder_name name with
  | some (fy, fm) =>
    decide (monthsToKeep ≤ (nowYear - fy) * 12 + (nowMonth - (fm : Int)))
  | none => false

/-! ### Filesystem models -/

/-- What a directory entry is for os.path.isdir and os.path.isfile:
a directory, a regular file, or something else. -/
inductive EntryKind
  | dir
  | file
  | other
deriving DecidableEq

/-- One entry of a directory listing. -/
structure FSEntry where
  name : String
  kind : EntryKind
deriving DecidableEq

/-- Outcome of os.listdir on a path: a listing, FileNotFoundError when
the path does not exist, or PermissionError when it is inaccessible. -/
inductive ListdirResult
  | ok (entries : List FSEntry)
  | fileNotFound
  | permissionErr
deriving DecidableEq

/-- get_subdirectories: names of the listing entries that are
directories; FileNotFoundError is caught and yields the empty list, but
any other OSError (such as PermissionError) propagates, modelled as an
error result. -/
def get_subdirectories (listing : ListdirResult) : Except Unit (List String) :=
  match listing with
  | ListdirResult.ok es =>
    Except.ok ((es.filter (fun e => e.kind = EntryKind.dir)).map (fun e => e.name))
  | ListdirResult.fileNotFound => Except.ok []
  | ListdirResult.permissionErr => Except.error ()

/-- get_files_in_directory: same shape as get_subdirectories, keeping
the entries that are regular files. -/
def get_files_in_directory (listing : ListdirResult) : Except Unit (List String) :=
  match listing with
  | ListdirResult.ok es =>
    Except.ok ((es.filter (fun e => e.kind = EntryKind.file)).map (fun e => e.name))
  | ListdirResult.fileNotFound => Except.ok []
  | ListdirResult.permissionErr => Except.error ()

/-- The whole cleanup pass of delete_old_monthly_folders, as the list of
folder names it removes: when the base log folder is absent it returns
at once; otherwise every listed entry that is a directory is examined
and deleted exactly when shouldDelete accepts its name. -/
def delete_old_monthly_folders (nowYear nowMonth monthsToKeep : Int)
    (base : Option (List FSEntry)) : List String :=
  match base with
  | none => []
  | some entries =>
    ((entries.filter (fun e => e.kind = EntryKind.dir)).map (fun e => e.name)).filter
      (fun n => shouldDelete nowYear nowMonth monthsToKeep n)

/-- The base folder where logs are stored; the absolute prefix computed
from the script location is abstracted to a fixed name. -/
def BASE_LOG_FOLDER : String := "logs"

/-- create_monthly_folder over an explicit set of existing directories:
builds root/<MonthName>_<Year>, creates it when absent (os.makedirs),
and returns the updated directory set together with the path. -/
def create_monthly_folder (nowYear nowMonth : Nat)
    (existing : List String) : List String × String :=
  let month_folder_path :=
    BASE_LOG_FOLDER ++ "/" ++ create_monthly_folder_name nowYear nowMonth
  if month_folder_path ∈ existing then (existing, month_folder_path)
  else (month_folder_path :: existing, month_folder_path)

/-! ### The configuration reader -/

/-- Handling of one line by read_paths_with_messages: strip it, drop it
when blank, split at the first delimiter when one occurs (stripping both
pieces), and otherwise keep the whole line as a bare path with an empty
message. -/
def parse_line (delimiter : Char) (line : String) : Option (String × String) :=
  let l := pyStrip line.data
  if l = [] then none
  else
    match splitFirst delimiter l with
    | some (a, b) => some (String.mk (pyStrip a), String.mk (pyStrip b))
    | none => some (String.mk l, "")

/-- read_paths_with_messages over the configuration file content given
as its list of lines; none models a file that does not exist, for which
the function returns the empty list.  The delimiter is the default
one-character bar the program uses. -/
def read_paths_with_messages (content : Option (List String)) : List (String × String) :=
  match content with
  | none => []
  | some lines => lines.filterMap (parse_line '|')

/-! ### The main routine -/

/-- The lines main appends for one configured (path, message) entry:
a divider, the path, the message when nonempty, the subdirectory block
when nonempty, the file block when nonempty, then a blank line.  A
listing error propagates out of the loop. -/
def section_lines (listing : ListdirResult) (path msg : String) :
    Except Unit (List String) :=
  match get_subdirectories listing with
  | Except.error e => Except.error e
  | Except.ok subdirs =>
    match get_files_in_directory listing with
    | Except.error e => Except.error e
    | Except.ok files =>
      Except.ok (["----------------------------------------", "PATH: " ++ path]
        ++ (if msg = "" then [] else ["MESSAGE: " ++ msg])
        ++ (if subdirs = [] then []
            else "  Subdirectories:" :: subdirs.map (fun sd => "    " ++ sd))
        ++ (if files = [] then []
            else "  Files:" :: files.map (fun f => "    " ++ f))
        ++ [""])

/-- The gathering loop of main over all configured entries, with the
per-path listings supplied by the environment. -/
def build_lines (listdir : String → ListdirResult) :
    List (String × String) → Except Unit (List String)
  | [] => Except.ok []
  | (p, msg) :: rest =>
    match section_lines (listdir p) p msg with
    | Except.error e => Except.error e
    | Except.ok s =>
      match build_lines listdir rest with
      | Except.error e => Except.error e
      | Except.ok r => Except.ok (s ++ r)

/-- Observable steps of one run, in execution order. -/
inductive Event
  | snapshotWrite (success : Bool)
  | deleteFolder (name : String)
deriving DecidableEq

/-- Result of one run: the steps that executed, the snapshot content
when the write completed, and whether an exception escaped main. -/
structure RunResult where
  events : List Event
  snapshot : Option String
  raised : Bool
deriving DecidableEq

/-- The inputs of one run: the current timestamp fields main reads, the
configuration file content, the listing behaviour of every configured
path, the listing of the base log folder at cleanup time, and whether
the snapshot write succeeds. -/
structure Env where
  nowYear : Nat
  nowMonth : Nat
  nowStr : String
  config : Option (List String)
  listdir : String → ListdirResult
  baseDirs : Option (List FSEntry)
  writeOk : Bool

/-- The main routine: create the month folder, read the configuration,
gather the log lines (a listing error aborts the run), write the
snapshot (a write error aborts the run), then and only then run the
cleanup pass.  The snapshot content is the newline join of the gathered
lines, whose first element is the generation header. -/
def main (env : Env) : RunResult :=
  match build_lines env.listdir (read_paths_with_messages env.config) with
  | Except.error _ => { events := [], snapshot := none, raised := true }
  | Except.ok body =>
    if env.writeOk then
      { events := Event.snapshotWrite true ::
          (delete_old_monthly_folders (env.nowYear : Int) (env.nowMonth : Int)
            MONTHS_TO_KEEP env.baseDirs).map Event.deleteFolder,
        snapshot := some (String.intercalate "\n"
          (("Log generated on " ++ env.nowStr ++ "\n") :: body)),
        raised := false }
    else
      { events := [Event.snapshotWrite false], snapshot := none, raised := true }

/-! ### Helper lemmas about the string primitives -/

lemma string_data_append (a b : String) : (a ++ b).data = a.data ++ b.data := by
  cases a
  cases b
  rfl

lemma splitChar_not_mem {sep : Char} :
    ∀ l : List Char, sep ∉ l → splitChar sep l = [l]
  | [], _ => rfl
  | c :: t, h => by
    have hc : ¬ c = sep := by
      intro he
      subst he
      exact h (List.mem_cons_self c t)
    have ht : sep ∉ t := fun hm => h (List.mem_cons_of_mem c hm)
    simp [splitChar, splitChar_not_mem t ht, hc]

lemma splitChar_append_single {sep : Char} :
    ∀ a b : List Char, sep ∉ a → sep ∉ b →
      splitChar sep (a ++ sep :: b) = [a, b]
  | [], b, _, hb => by
    simp [splitChar, splitChar_not_mem b hb]
  | c :: t, b, ha, hb => by
    have hc : ¬ c = sep := by
      intro he
      subst he
      exact ha (List.mem_cons_self c t)
    have ht : sep ∉ t := fun hm => ha (List.mem_cons_of_mem c hm)
    simp [splitChar, splitChar_append_single t b ht hb, hc]

lemma splitFirst_not_mem {sep : Char} :
    ∀ l : List Char, sep ∉ l → splitFirst sep l = none
  | [], _ => rfl
  | c :: t, h => by
    have hc : ¬ c = sep := by
      intro he
      subst he
      exact h (List.mem_cons_self c t)
    have ht : sep ∉ t := fun hm => h (List.mem_cons_of_mem c hm)
    simp [splitFirst, splitFirst_not_mem t ht, hc]

lemma splitFirst_append {sep : Char} :
    ∀ a b : List Char, sep ∉ a →
      splitFirst sep (a ++ sep :: b) = some (a, b)
  | [], b, _ => by simp [splitFirst]
  | c :: t, b, ha => by
    have hc : ¬ c = sep := by
      intro he
      subst he
      exact ha (List.mem_cons_self c t)
    have ht : sep ∉ t := fun hm => ha (List.mem_cons_of_mem c hm)
    simp [splitFirst, splitFirst_append t b ht, hc]

lemma dropWhile_isPyWs_eq_self :
    ∀ l : List Char, (∀ c ∈ l, isPyWs c = false) → l.dropWhile isPyWs = l
  | [], _ => rfl
  | c :: t, h => by
    simp [List.dropWhile_cons, h c (List.mem_cons_self c t)]

lemma pyStrip_eq_self {l : List Char} (h : ∀ c ∈ l, isPyWs c = false) :
    pyStrip l = l := by
  unfold pyStrip
  rw [dropWhile_isPyWs_eq_self l h]
  rw [dropWhile_isPyWs_eq_self l.reverse (fun c hc => h c (List.mem_reverse.mp hc))]
  exact List.reverse_reverse l

/-! ### Helper lemmas about decimal digits -/

lemma digitChar_toNat {d : Nat} (h : d < 10) : (digitChar d).toNat = 48 + d := by
  interval_cases d <;> rfl

lemma isDigit_digitChar {d : Nat} (h : d < 10) : isDigit (digitChar d) = true := by
  interval_cases d <;> rfl

lemma natDigitsFuel_ne_nil : ∀ fuel n : Nat, n < fuel → natDigitsFuel fuel n ≠ []
  | 0, n, h => absurd h (Nat.not_lt_zero n)
  | fuel + 1, n, _ => by
    unfold natDigitsFuel
    split
    · simp
    · simp

lemma natDigits_ne_nil (n : Nat) : natDigits n ≠ [] :=
  natDigitsFuel_ne_nil (n + 1) n (Nat.lt_succ_self n)

lemma natDigitsFuel_all_digit : ∀ fuel n : Nat, n < fuel →
    ∀ c ∈ natDigitsFuel fuel n, isDigit c = true
  | 0, n, h => absurd h (Nat.not_lt_zero n)
  | fuel + 1, n, h => by
    unfold natDigitsFuel
    split
    · rename_i h10
      intro c hc
      rw [List.mem_singleton] at hc
      subst hc
      exact isDigit_digitChar h10
    · rename_i h10
      intro c hc
      rcases List.mem_append.mp hc with hmem | hmem
      · exact natDigitsFuel_all_digit fuel (n / 10) (by omega) c hmem
      · rw [List.mem_singleton] at hmem
        subst hmem
        exact isDigit_digitChar (Nat.mod_lt n (by omega))

lemma natDigits_all_digit (n : Nat) : ∀ c ∈ natDigits n, isDigit c = true :=
  natDigitsFuel_all_digit (n + 1) n (Nat.lt_succ_self n)

lemma isPyWs_eq_false_of_isDigit {c : Char} (h : isDigit c = true) :
    isPyWs c = false := by
  simp only [isDigit, decide_eq_true_eq] at h
  simp only [isPyWs, decide_eq_false_iff_not]
  omega

lemma natDigits_no_ws (n : Nat) : ∀ c ∈ natDigits n, isPyWs c = false :=
  fun c hc => isPyWs_eq_false_of_isDigit (natDigits_all_digit n c hc)

lemma underscore_not_mem_natDigits (n : Nat) : '_' ∉ natDigits n := by
  intro hm
  exact absurd (natDigits_all_digit n '_' hm) (by decide)

lemma natDigitsFuel_foldl : ∀ fuel n : Nat, n < fuel → ∀ acc : Nat,
    (natDigitsFuel fuel n).foldl (fun a d => a * 10 + (d.toNat - 48)) acc
      = acc * 10 ^ (natDigitsFuel fuel n).length + n
  | 0, n, h => absurd h (Nat.not_lt_zero n)
  | fuel + 1, n, h => by
    intro acc
    unfold natDigitsFuel
    split
    · rename_i h10
      simp only [List.foldl_cons, List.foldl_nil, List.length_singleton, pow_one]
      rw [digitChar_toNat h10]
      omega
    · rename_i h10
      rw [List.foldl_append, natDigitsFuel_foldl fuel (n / 10) (by omega) acc]
      simp only [List.foldl_cons, List.foldl_nil, List.length_append,
        List.length_singleton]
      rw [digitChar_toNat (Nat.mod_lt n (by omega))]
      have hsub : 48 + n % 10 - 48 = n % 10 := by omega
      rw [hsub]
      calc (acc * 10 ^ (natDigitsFuel fuel (n / 10)).length + n / 10) * 10 + n % 10
          = acc * (10 ^ (natDigitsFuel fuel (n / 10)).length * 10)
              + (10 * (n / 10) + n % 10) := by ring
        _ = acc * 10 ^ ((natDigitsFuel fuel (n / 10)).length + 1) + n := by
            rw [pow_succ, Nat.div_add_mod]

lemma natDigits_foldl (n : Nat) : ∀ acc : Nat,
    (natDigits n).foldl (fun a d => a * 10 + (d.toNat - 48)) acc
      = acc * 10 ^ (natDigits n).length + n :=
  natDigitsFuel_foldl (n + 1) n (Nat.lt_succ_self n)

lemma digitsVal_natDigits (n : Nat) : digitsVal (natDigits n) = some n := by
  unfold digitsVal
  rw [if_neg (natDigits_ne_nil n)]
  rw [if_pos (by rw [List.all_eq_true]; exact natDigits_all_digit n)]
  rw [natDigits_foldl n 0]
  simp

lemma pyInt_natDigits (n : Nat) : pyInt (natDigits n) = some (n : Int) := by
  have h0 : pyStrip (natDigits n) = natDigits n :=
    pyStrip_eq_self (natDigits_no_ws n)
  obtain ⟨c, t, hct⟩ := List.exists_cons_of_ne_nil (natDigits_ne_nil n)
  have hc : isDigit c = true := by
    refine natDigits_all_digit n c ?_
    rw [hct]
    exact List.mem_cons_self c t
  have hplus : ¬ (natDigits n).headD ' ' = '+' := by
    rw [hct]
    intro he
    rw [List.headD_cons] at he
    rw [he] at hc
    exact absurd hc (by decide)
  have hminus : ¬ (natDigits n).headD ' ' = '-' := by
    rw [hct]
    intro he
    rw [List.headD_cons] at he
    rw [he] at hc
    exact absurd hc (by decide)
  unfold pyInt
  simp only [h0]
  rw [if_neg (natDigits_ne_nil n), if_neg hplus, if_neg hminus,
    digitsVal_natDigits n]
  rfl

/-! ### Facts about the folder-name parser -/

lemma monthFind_bounds {s : List Char} :
    ∀ (l : List String) (i m : Nat),
      monthFind s l i = some m → i ≤ m ∧ m < i + l.length
  | [], _, _, h => Option.noConfusion h
  | nm :: rest, i, m, h => by
    unfold monthFind at h
    by_cases hc : monthEqCI s nm.data = true
    · rw [if_pos hc] at h
      injection h with h2
      subst h2
      simp
    · rw [if_neg hc] at h
      have hr := monthFind_bounds rest (i + 1) m h
      simp only [List.length_cons]
      omega

lemma strptimeMonth_bounds {s : List Char} {m : Nat}
    (h : strptimeMonth s = some m) : 1 ≤ m ∧ m ≤ 12 := by
  unfold strptimeMonth at h
  have hb := monthFind_bounds monthNames 1 m h
  have hlen : monthNames.length = 12 := rfl
  omega

lemma parse_parts_bounds {a b : List Char} {y : Int} {m : Nat}
    (h : parse_parts a b = some (y, m)) :
    1 ≤ y ∧ y ≤ 9999 ∧ 1 ≤ m ∧ m ≤ 12 := by
  unfold parse_parts at h
  cases hy : pyInt b with
  | none =>
    simp only [hy] at h
    exact Option.noConfusion h
  | some fy =>
    simp only [hy] at h
    cases hm : strptimeMonth a with
    | none =>
      simp only [hm] at h
      exact Option.noConfusion h
    | some fm =>
      simp only [hm] at h
      by_cases hc : 1 ≤ fy ∧ fy ≤ 9999
      · rw [if_pos hc] at h
        simp only [Option.some.injEq, Prod.mk.injEq] at h
        obtain ⟨rfl, rfl⟩ := h
        obtain ⟨h1, h2⟩ := strptimeMonth_bounds hm
        exact ⟨hc.1, hc.2, h1, h2⟩
      · rw [if_neg hc] at h
        exact Option.noConfusion h

lemma parse_folder_name_bounds {name : String} {y : Int} {m : Nat}
    (h : parse_folder_name name = some (y, m)) :
    1 ≤ y ∧ y ≤ 9999 ∧ 1 ≤ m ∧ m ≤ 12 := by
  unfold parse_folder_name at h
  split at h
  · exact parse_parts_bounds h
  · cases h

lemma parse_folder_name_eq_parts {name : String} {a b : List Char}
    (h : splitChar '_' name.data = [a, b]) :
    parse_folder_name name = parse_parts a b := by
  unfold parse_folder_name
  rw [h]

lemma month_name_strptime {m : Nat} (h1 : 1 ≤ m) (h2 : m ≤ 12) :
    strptimeMonth (month_name m).data = some m := by
  interval_cases m <;> rfl

lemma month_name_no_underscore {m : Nat} (h1 : 1 ≤ m) (h2 : m ≤ 12) :
    '_' ∉ (month_name m).data := by
  interval_cases m <;> decide

lemma create_monthly_folder_name_data (y m : Nat) :
    (create_monthly_folder_name y m).data
      = (month_name m).data ++ '_' :: natDigits y := by
  unfold create_monthly_folder_name
  rw [string_data_append, string_data_append]
  rw [List.append_assoc]
  rfl

lemma parse_create_roundtrip (y m : Nat)
    (hy1 : 1 ≤ y) (hy2 : y ≤ 9999) (hm1 : 1 ≤ m) (hm2 : m ≤ 12) :
    parse_folder_name (create_monthly_folder_name y m) = some ((y : Int), m) := by
  have hsplit : splitChar '_' (create_monthly_folder_name y m).data
      = [(month_name m).data, natDigits y] := by
    rw [create_monthly_folder_name_data]
    exact splitChar_append_single _ _ (month_name_no_underscore hm1 hm2)
      (underscore_not_mem_natDigits y)
  rw [parse_folder_name_eq_parts hsplit]
  unfold parse_parts
  simp only [pyInt_natDigits, month_name_strptime hm1 hm2]
  rw [if_pos (by omega)]

/-- Claim C1.  Round-trip of the bucket naming: for every valid pair
(year, month) — a month between 1 and 12 and a year a datetime can
carry, between MINYEAR = 1 and MAXYEAR = 9999 — rendering the bucket
name as create_monthly_folder does and parsing it back as
delete_old_monthly_folders does yields the original pair. -/
theorem bucket_name_roundtrip (y m : Nat)
    (hy1 : 1 ≤ y) (hy2 : y ≤ 9999) (hm1 : 1 ≤ m) (hm2 : m ≤ 12) :
    parse_folder_name (create_monthly_folder_name y m) = some ((y : Int), m) :=
  parse_create_roundtrip y m hy1 hy2 hm1 hm2

/-- Witness for claim C1 at the concrete bucket December 2024. -/
theorem bucket_name_roundtrip_witness :
    parse_folder_name (create_monthly_folder_name 2024 12) = some (2024, 12) :=
  bucket_name_roundtrip 2024 12 (by decide) (by decide) (by decide) (by decide)

/-! ### The retention decision -/

lemma shouldDelete_of_parse {name : String} {y : Int} {m : Nat}
    (nowYear nowMonth monthsToKeep : Int)
    (h : parse_folder_name name = some (y, m)) :
    shouldDelete nowYear nowMonth monthsToKeep name
      = decide (monthsToKeep ≤ (nowYear - y) * 12 + (nowMonth - (m : Int))) := by
  unfold shouldDelete
  simp only [h]

lemma shouldDelete_of_unparseable {name : String}
    (nowYear nowMonth monthsToKeep : Int)
    (h : parse_folder_name name = none) :
    shouldDelete nowYear nowMonth monthsToKeep name = false := by
  unfold shouldDelete
  simp only [h]

lemma shouldDelete_of_mem_delete_old {nowYear nowMonth monthsToKeep : Int}
    {name : String} {base : Option (List FSEntry)}
    (h : name ∈ delete_old_monthly_folders nowYear nowMonth monthsToKeep base) :
    shouldDelete nowYear nowMonth monthsToKeep name = true := by
  cases base with
  | none => exact absurd h (List.not_mem_nil name)
  | some entries =>
    unfold delete_old_monthly_folders at h
    exact (List.mem_filter.mp h).2

/-- Claim C2.  For every parseable folder name the retention decision
deletes the folder exactly when
(now.year - folder.year) * 12 + (now.month - folder.month) is at least
monthsToKeep; in particular with monthsToKeep = 3 and now in March 2025
a folder December_2024 (distance 3) is deleted and January_2025
(distance 2) is not. -/
theorem retention_decision (nowYear nowMonth monthsToKeep : Int)
    (name : String) (y : Int) (m : Nat)
    (h : parse_folder_name name = some (y, m)) :
    (shouldDelete nowYear nowMonth monthsToKeep name = true ↔
      monthsToKeep ≤ (nowYear - y) * 12 + (nowMonth - (m : Int)))
    ∧ shouldDelete 2025 3 3 "December_2024" = true
    ∧ shouldDelete 2025 3 3 "January_2025" = false := by
  refine ⟨?_, by decide, by decide⟩
  rw [shouldDelete_of_parse nowYear nowMonth monthsToKeep h]
  exact decide_eq_true_iff

/-- Witness for claim C2 at the boundary folder December_2024 seen from
March 2025 with a three-month window. -/
theorem retention_decision_witness :
    (shouldDelete 2025 3 3 "December_2024" = true ↔
      (3 : Int) ≤ (2025 - 2024) * 12 + (3 - (12 : Int)))
    ∧ shouldDelete 2025 3 3 "December_2024" = true
    ∧ shouldDelete 2025 3 3 "January_2025" = false :=
  retention_decision 2025 3 3 "December_2024" 2024 12 (by decide)

/-- Claim C3.  A folder whose name does not parse is never deleted,
whatever the current date and window: the parse failure is caught and
the folder skipped while the scan continues over the other folders.
The names notamonth_name and March_25AB are such names, and a scan over
a listing holding one of them together with an old well-formed folder
still deletes the old folder and only it. -/
theorem unparseable_never_deleted (nowYear nowMonth monthsToKeep : Int)
    (name : String) (base : List FSEntry)
    (h : parse_folder_name name = none) :
    shouldDelete nowYear nowMonth monthsToKeep name = false
    ∧ name ∉ delete_old_monthly_folders nowYear nowMonth monthsToKeep (some base)
    ∧ parse_folder_name "notamonth_name" = none
    ∧ parse_folder_name "March_25AB" = none
    ∧ delete_old_monthly_folders 2025 3 3
        (some [⟨"notamonth_name", EntryKind.dir⟩, ⟨"December_2020", EntryKind.dir⟩])
        = ["December_2020"] := by
  have hsd := shouldDelete_of_unparseable nowYear nowMonth monthsToKeep h
  refine ⟨hsd, ?_, by decide, by decide, by decide⟩
  intro hmem
  rw [shouldDelete_of_mem_delete_old hmem] at hsd
  exact Bool.noConfusion hsd

/-- Witness for claim C3 at the malformed name March_25AB. -/
theorem unparseable_never_deleted_witness :
    shouldDelete 2025 3 3 "March_25AB" = false
    ∧ "March_25AB" ∉ delete_old_monthly_folders 2025 3 3
        (some [⟨"March_25AB", EntryKind.dir⟩]) := by
  have h := unparseable_never_deleted 2025 3 3 "March_25AB"
    [⟨"March_25AB", EntryKind.dir⟩] (by decide)
  exact ⟨h.1, h.2.1⟩

/-- Claim C4.  A folder whose parsed bucket lies in a calendar month
strictly after the current one has negative distance and, for any
nonnegative window, is never classified as expired nor deleted. -/
theorem future_bucket_never_deleted (nowYear nowMonth monthsToKeep : Int)
    (name : String) (y : Int) (m : Nat) (base : Option (List FSEntry))
    (hp : parse_folder_name name = some (y, m))
    (hnm1 : 1 ≤ nowMonth) (hnm2 : nowMonth ≤ 12)
    (hfut : nowYear < y ∨ (nowYear = y ∧ nowMonth < (m : Int)))
    (hk : 0 ≤ monthsToKeep) :
    (nowYear - y) * 12 + (nowMonth - (m : Int)) < 0
    ∧ shouldDelete nowYear nowMonth monthsToKeep name = false
    ∧ name ∉ delete_old_monthly_folders nowYear nowMonth monthsToKeep base := by
  obtain ⟨hy1, hy2, hm1, hm2⟩ := parse_folder_name_bounds hp
  have hm1i : (1 : Int) ≤ (m : Int) := by exact_mod_cast hm1
  have hm2i : (m : Int) ≤ 12 := by exact_mod_cast hm2
  have hneg : (nowYear - y) * 12 + (nowMonth - (m : Int)) < 0 := by
    rcases hfut with hlt | ⟨heq, hlt⟩ <;> omega
  have hsd : shouldDelete nowYear nowMonth monthsToKeep name = false := by
    rw [shouldDelete_of_parse nowYear nowMonth monthsToKeep hp]
    rw [decide_eq_false_iff_not]
    omega
  refine ⟨hneg, hsd, ?_⟩
  intro hmem
  rw [shouldDelete_of_mem_delete_old hmem] at hsd
  exact Bool.noConfusion hsd

/-- Witness for claim C4: from March 2025, the future bucket April_2025
has negative distance and is not deleted. -/
theorem future_bucket_never_deleted_witness :
    ((2025 : Int) - 2025) * 12 + ((3 : Int) - (4 : Int)) < 0
    ∧ shouldDelete 2025 3 3 "April_2025" = false
    ∧ "April_2025" ∉ delete_old_monthly_folders 2025 3 3
        (some [⟨"April_2025", EntryKind.dir⟩]) :=
  future_bucket_never_deleted 2025 3 3 "April_2025" 2025 4
    (some [⟨"April_2025", EntryKind.dir⟩]) (by decide) (by decide) (by decide)
    (Or.inr ⟨rfl, by decide⟩) (by decide)

/-! ### The configuration reader, line by line -/

/-- Claim C7.  read_paths_with_messages handles every line of the file
as follows: a line that is blank after stripping contributes nothing; a
line holding the delimiter is split at its first occurrence into a
(path, message) pair of stripped pieces; a line without the delimiter
becomes a bare path with an empty message — in all three cases the line
is consumed without error and processing continues with the rest. -/
theorem read_paths_line_handling (line : String) (rest : List String) :
    (pyStrip line.data = [] →
      read_paths_with_messages (some (line :: rest))
        = read_paths_with_messages (some rest))
    ∧ (∀ a b : List Char, pyStrip line.data = a ++ '|' :: b → '|' ∉ a →
      read_paths_with_messages (some (line :: rest))
        = (String.mk (pyStrip a), String.mk (pyStrip b))
            :: read_paths_with_messages (some rest))
    ∧ (pyStrip line.data ≠ [] → '|' ∉ pyStrip line.data →
      read_paths_with_messages (some (line :: rest))
        = (String.mk (pyStrip line.data), "")
            :: read_paths_with_messages (some rest)) := by
  refine ⟨?_, ?_, ?_⟩
  · intro h
    simp [read_paths_with_messages, List.filterMap_cons, parse_line, h]
  · intro a b hab hna
    have hne : ¬ pyStrip line.data = [] := by
      rw [hab]
      simp
    simp [read_paths_with_messages, List.filterMap_cons, parse_line, hne, hab,
      splitFirst_append a b hna]
  · intro h1 h2
    simp [read_paths_with_messages, List.filterMap_cons, parse_line, h1,
      splitFirst_not_mem _ h2]

/-- Witness for claim C7 on a line with the delimiter, a blank line and
a bare-path line. -/
theorem read_paths_line_handling_witness :
    read_paths_with_messages (some ["a | hi"])
      = (String.mk (pyStrip ['a', ' ']), String.mk (pyStrip [' ', 'h', 'i']))
          :: read_paths_with_messages (some [])
    ∧ read_paths_with_messages (some ["  ", "x"])
        = read_paths_with_messages (some ["x"])
    ∧ read_paths_with_messages (some ["bare"])
        = (String.mk (pyStrip "bare".data), "")
            :: read_paths_with_messages (some []) :=
  ⟨(read_paths_line_handling "a | hi" []).2.1 ['a', ' '] [' ', 'h', 'i'] (by decide)
      (by decide),
   (read_paths_line_handling "  " ["x"]).1 (by decide),
   (read_paths_line_handling "bare" []).2.2 (by decide) (by decide)⟩

/-! ### Idempotence of the month-folder creation -/

/-- Claim C8.  create_monthly_folder is idempotent: under one current
month, the first call creates the folder when absent and a second call
performs no creation (the path already exists); both calls return the
path root/<MonthName>_<Year>. -/
theorem create_monthly_folder_idempotent (nowYear nowMonth : Nat)
    (existing : List String) :
    (create_monthly_folder nowYear nowMonth
        (create_monthly_folder nowYear nowMonth existing).1).1
      = (create_monthly_folder nowYear nowMonth existing).1
    ∧ (create_monthly_folder nowYear nowMonth
        (create_monthly_folder nowYear nowMonth existing).1).2
      = (create_monthly_folder nowYear nowMonth existing).2
    ∧ (create_monthly_folder nowYear nowMonth existing).2
      = BASE_LOG_FOLDER ++ "/" ++ create_monthly_folder_name nowYear nowMonth
    ∧ (create_monthly_folder nowYear nowMonth existing).2
      ∈ (create_monthly_folder nowYear nowMonth existing).1 := by
  unfold create_monthly_folder
  by_cases hmem :
      BASE_LOG_FOLDER ++ "/" ++ create_monthly_folder_name nowYear nowMonth
        ∈ existing
  · simp [hmem]
  · simp [hmem]

/-! ### Run-level lemmas -/

lemma section_lines_ok (r : ListdirResult) (hr : r ≠ ListdirResult.permissionErr)
    (p msg : String) : ∃ s, section_lines r p msg = Except.ok s := by
  cases r with
  | ok es => exact ⟨_, rfl⟩
  | fileNotFound => exact ⟨_, rfl⟩
  | permissionErr => exact absurd rfl hr

lemma build_lines_ok (listdir : String → ListdirResult)
    (h : ∀ p, listdir p ≠ ListdirResult.permissionErr) :
    ∀ entries : List (String × String),
      ∃ b, build_lines listdir entries = Except.ok b
  | [] => ⟨[], rfl⟩
  | (p, msg) :: rest => by
    obtain ⟨s, hs⟩ := section_lines_ok (listdir p) (h p) p msg
    obtain ⟨b, hb⟩ := build_lines_ok listdir h rest
    exact ⟨s ++ b, by simp only [build_lines, hs, hb]⟩

/-! ### Concrete run environments used by the closed theorems -/

/-- A run whose single configured path raises PermissionError when
listed; everything else is healthy. -/
def envPermDenied : Env :=
  { nowYear := 2025, nowMonth := 3, nowStr := "2025-03-15 12:00:00",
    config := some ["D:\\secret"],
    listdir := fun _ => ListdirResult.permissionErr,
    baseDirs := none, writeOk := true }

/-- A run whose snapshot write raises IOError while an expired folder
December_2020 sits under the base log folder. -/
def envWriteFail : Env :=
  { nowYear := 2025, nowMonth := 3, nowStr := "2025-03-15 12:00:00",
    config := none,
    listdir := fun _ => ListdirResult.fileNotFound,
    baseDirs := some [⟨"December_2020", EntryKind.dir⟩], writeOk := false }

/-- A healthy run from March 2025 whose base folder holds the current
month folder and an expired one. -/
def envCurrentMonth : Env :=
  { nowYear := 2025, nowMonth := 3, nowStr := "2025-03-15 12:00:00",
    config := none,
    listdir := fun _ => ListdirResult.fileNotFound,
    baseDirs := some [⟨"March_2025", EntryKind.dir⟩,
                      ⟨"December_2020", EntryKind.dir⟩],
    writeOk := true }

/-- A healthy run whose configuration file does not exist. -/
def envNoConfig : Env :=
  { nowYear := 2025, nowMonth := 3, nowStr := "2025-03-15 12:00:00",
    config := none,
    listdir := fun _ => ListdirResult.fileNotFound,
    baseDirs := none, writeOk := true }

/-- A healthy run over one configured path that does not exist. -/
def envMissingPath : Env :=
  { nowYear := 2025, nowMonth := 3, nowStr := "2025-03-15 12:00:00",
    config := some ["C:\\gone"],
    listdir := fun _ => ListdirResult.fileNotFound,
    baseDirs := none, writeOk := true }

/-! ### Claim C5: tolerance of paths that cannot be listed -/

/-- Counterexample to claim C5 as stated.  The claim covers both a path
that does not exist and one that is inaccessible, but the code catches
only FileNotFoundError: on PermissionError both listing helpers
propagate the exception, and the run aborts with no snapshot written. -/
theorem inaccessible_path_not_tolerated :
    get_subdirectories ListdirResult.permissionErr = Except.error ()
    ∧ get_files_in_directory ListdirResult.permissionErr = Except.error ()
    ∧ (main envPermDenied).snapshot = none
    ∧ (main envPermDenied).raised = true :=
  ⟨rfl, rfl, rfl, rfl⟩

/-- Claim C5 as amended: for a configured path that does not exist, the
two listing helpers return empty lists rather than failing, the section
for that path is emitted with no subdirectory and no file block, and any
run all of whose listings avoid PermissionError still writes a snapshot
when the write itself succeeds. -/
theorem missing_path_tolerance (path msg : String) (env : Env)
    (hnoperm : ∀ p, env.listdir p ≠ ListdirResult.permissionErr)
    (hw : env.writeOk = true) :
    get_subdirectories ListdirResult.fileNotFound = Except.ok []
    ∧ get_files_in_directory ListdirResult.fileNotFound = Except.ok []
    ∧ section_lines ListdirResult.fileNotFound path msg
        = Except.ok (["----------------------------------------", "PATH: " ++ path]
            ++ (if msg = "" then [] else ["MESSAGE: " ++ msg]) ++ [""])
    ∧ (main env).snapshot.isSome = true := by
  refine ⟨rfl, rfl, by simp [section_lines, get_subdirectories,
    get_files_in_directory], ?_⟩
  obtain ⟨b, hb⟩ := build_lines_ok env.listdir hnoperm
    (read_paths_with_messages env.config)
  unfold main
  rw [hb, hw]
  rfl

/-- Witness for the amended claim C5 on a run over one missing path. -/
theorem missing_path_tolerance_witness :
    get_subdirectories ListdirResult.fileNotFound = Except.ok []
    ∧ get_files_in_directory ListdirResult.fileNotFound = Except.ok []
    ∧ section_lines ListdirResult.fileNotFound "C:\\gone" ""
        = Except.ok (["----------------------------------------", "PATH: " ++ "C:\\gone"]
            ++ (if ("" : String) = "" then [] else ["MESSAGE: " ++ ""]) ++ [""])
    ∧ (main envMissingPath).snapshot.isSome = true :=
  missing_path_tolerance "C:\\gone" "" envMissingPath
    (fun _ h => ListdirResult.noConfusion h) rfl

/-! ### Claim C6: snapshot before cleanup -/

/-- Counterexample to claim C6 as stated.  December_2020 is expired and
would be deleted by the cleanup pass, but when the snapshot write fails
the exception propagates and main never reaches the cleanup call: the
run records the failed write and no deletion at all. -/
theorem write_failure_suppresses_cleanup :
    shouldDelete 2025 3 MONTHS_TO_KEEP "December_2020" = true
    ∧ delete_old_monthly_folders 2025 3 MONTHS_TO_KEEP envWriteFail.baseDirs
        = ["December_2020"]
    ∧ (main envWriteFail).events = [Event.snapshotWrite false]
    ∧ Event.deleteFolder "December_2020" ∉ (main envWriteFail).events
    ∧ (main envWriteFail).raised = true := by
  refine ⟨rfl, rfl, rfl, ?_, rfl⟩
  decide

/-- Claim C6 as amended: the snapshot-writing step always precedes the
retention cleanup; when the write succeeds the cleanup pass runs right
after it, and when the write raises the run aborts and no folder is
deleted. -/
theorem snapshot_write_precedes_cleanup (env : Env) (body : List String)
    (hb : build_lines env.listdir (read_paths_with_messages env.config)
      = Except.ok body) :
    (env.writeOk = true →
      (main env).events = Event.snapshotWrite true ::
        (delete_old_monthly_folders (env.nowYear : Int) (env.nowMonth : Int)
          MONTHS_TO_KEEP env.baseDirs).map Event.deleteFolder)
    ∧ (env.writeOk = false →
      (main env).events = [Event.snapshotWrite false]
      ∧ ∀ n, Event.deleteFolder n ∉ (main env).events) := by
  constructor
  · intro hw
    unfold main
    rw [hb, hw]
    rfl
  · intro hw
    unfold main
    rw [hb, hw]
    refine ⟨rfl, ?_⟩
    intro n hmem
    rcases List.mem_cons.mp hmem with habs | habs
    · exact Event.noConfusion habs
    · exact absurd habs (List.not_mem_nil _)

/-- Witness for the amended claim C6 on the failed-write run. -/
theorem snapshot_write_precedes_cleanup_witness :
    (main envWriteFail).events = [Event.snapshotWrite false]
    ∧ ∀ n, Event.deleteFolder n ∉ (main envWriteFail).events :=
  (snapshot_write_precedes_cleanup envWriteFail [] rfl).2 rfl

/-! ### Claim C9: the current month folder survives its own run -/

/-- Claim C9.  The folder created for the current month parses back to
the current bucket, whose distance from now is zero, so it is never
classified expired under any window of at least one month — in
particular under MONTHS_TO_KEEP = 3 — and no run ever records a
deletion of the current month folder: the snapshot just written
survives its own cleanup pass. -/
theorem current_month_folder_survives (env : Env)
    (h1 : 1 ≤ env.nowYear) (h2 : env.nowYear ≤ 9999)
    (h3 : 1 ≤ env.nowMonth) (h4 : env.nowMonth ≤ 12) :
    (∀ monthsToKeep : Int, 1 ≤ monthsToKeep →
      shouldDelete (env.nowYear : Int) (env.nowMonth : Int) monthsToKeep
        (create_monthly_folder_name env.nowYear env.nowMonth) = false)
    ∧ Event.deleteFolder (create_monthly_folder_name env.nowYear env.nowMonth)
        ∉ (main env).events := by
  have hrt := parse_create_roundtrip env.nowYear env.nowMonth h1 h2 h3 h4
  have hsd : ∀ k : Int, 1 ≤ k →
      shouldDelete (env.nowYear : Int) (env.nowMonth : Int) k
        (create_monthly_folder_name env.nowYear env.nowMonth) = false := by
    intro k hk
    rw [shouldDelete_of_parse _ _ _ hrt, decide_eq_false_iff_not]
    omega
  refine ⟨hsd, ?_⟩
  unfold main
  cases hb : build_lines env.listdir (read_paths_with_messages env.config) with
  | error e => simp
  | ok body =>
    by_cases hw : env.writeOk
    · simp only [hw, if_true]
      intro hmem
      rcases List.mem_cons.mp hmem with habs | hmem2
      · exact Event.noConfusion habs
      · obtain ⟨d, hd, hde⟩ := List.mem_map.mp hmem2
        injection hde with hdn
        subst hdn
        have hdel := shouldDelete_of_mem_delete_old hd
        rw [hsd MONTHS_TO_KEEP (by decide)] at hdel
        exact Bool.noConfusion hdel
    · simp only [hw, if_false]
      intro hmem
      rcases List.mem_cons.mp hmem with habs | habs
      · exact Event.noConfusion habs
      · exact absurd habs (List.not_mem_nil _)

/-- Witness for claim C9 on the healthy March 2025 run whose base folder
holds the current folder March_2025 next to an expired one. -/
theorem current_month_folder_survives_witness :
    Event.deleteFolder (create_monthly_folder_name 2025 3)
      ∉ (main envCurrentMonth).events :=
  (current_month_folder_survives envCurrentMonth
    (by decide) (by decide) (by decide) (by decide)).2

/-! ### Claim C10: a missing configuration file -/

/-- Claim C10.  When the configuration file does not exist,
read_paths_with_messages returns the empty list rather than raising, and
the run completes, writing a snapshot holding only the generation header
line and no path section. -/
theorem missing_config_tolerated (env : Env)
    (hc : env.config = none) (hw : env.writeOk = true) :
    read_paths_with_messages none = ([] : List (String × String))
    ∧ (main env).snapshot = some ("Log generated on " ++ env.nowStr ++ "\n")
    ∧ (main env).raised = false := by
  refine ⟨rfl, ?_, ?_⟩ <;>
  · unfold main
    rw [hc, hw]
    rfl

/-- Witness for claim C10 on a healthy run without configuration. -/
theorem missing_config_tolerated_witness :
    read_paths_with_messages none = ([] : List (String × String))
    ∧ (main envNoConfig).snapshot
        = some ("Log generated on " ++ "2025-03-15 12:00:00" ++ "\n")
    ∧ (main envNoConfig).raised = false :=
  missing_config_tolerated envNoConfig (by decide) (by decide)

end FolderContentsLogger
